import Mathlib

/-!
# OpalForge Certificate Worker — verification of the request handlers

Shallow embedding of `src/index.ts` (Cloudflare Worker: D1 durable store,
KV cache, jsPDF local rendering).  External collaborators are modelled at
their boundary:

* the D1 store is a list of rows; an `INSERT` on a duplicate `cert_id`
  fails with SQLite's "UNIQUE constraint failed" message (the schema
  declares `cert_id TEXT UNIQUE NOT NULL`);
* the KV cache is a keyed map; each `KV.get` / `KV.put` call carries an
  explicit outcome parameter (`none` = the awaited call succeeds,
  `some msg` = the call throws an error whose `.message` is `msg`),
  because the worker's behaviour on a thrown cache error is part of what
  is being verified;
* each `new Date().toISOString()` call site receives its own clock
  reading as a parameter (the create handler contains two distinct
  call sites, lines 132 and 141 of the source);
* QR encoding is an opaque deterministic capability: the model records
  which string was encoded.

JS truthiness of the `||` defaults (`data.timestamp || ...`,
`data.qrPayload || ...`, `searchParams.get(..) || '0'`) is modelled by
`jsOr`: both a missing value and an empty string select the default.
-/

namespace OpalForge

/-- A row of the `certificates` D1 table (the columns the worker reads
and writes; the surrogate id and audit columns are never consulted). -/
structure CertRow where
  certId : String
  confidence : ℚ
  timestamp : String
  qrPayload : Option String
  status : String
deriving DecidableEq, Repr

/-- The JSON object the worker caches under `cert:<certId>` and returns
from the verify endpoint: `{certId, confidence, timestamp, status}`.
Both the create-time cache write (line 138) and the verify `SELECT`
(line 183) use exactly these four fields, in this order, so cache values
are modelled in parsed form (`JSON.stringify` is injective here). -/
structure CertJson where
  certId : String
  confidence : ℚ
  timestamp : String
  status : String
deriving DecidableEq, Repr

/-- The D1 `certificates` table, in insertion order. -/
abbrev Store := List CertRow

/-- The KV cert cache: entries keyed by certId (KV key `cert:<certId>`;
the `pdf:` key space is disjoint and is only ever written, never read,
so it is tracked through the effect trace alone). -/
abbrev Cache := List (String × CertJson)

/-- Outcome of one awaited fallible external call: `none` = success,
`some msg` = throws an error with message `msg`. -/
abbrev FailWith := Option String

/-- Observable side effects a handler performs, in program order. -/
inductive Effect
  | storeInsert (certId : String)
  | storeQuery (certId : String)
  | cacheGet (key : String)
  | cachePut (key : String)
  | qrEncode (data : String)
deriving DecidableEq, Repr

/-- JS `a || b` where `a` is a possibly-absent string: an absent value
and the empty string are falsy and select the default. -/
def jsOr (a : Option String) (b : String) : String :=
  match a with
  | none => b
  | some s => if s = "" then b else s

/-- `sub.isPrefixOf` analogue over characters, written out so the model
is self-contained. -/
def leadsWith : List Char → List Char → Bool
  | [], _ => true
  | _ :: _, [] => false
  | a :: as, b :: bs => a == b && leadsWith as bs

def listContains (sub : List Char) : List Char → Bool
  | [] => sub.isEmpty
  | c :: rest => leadsWith sub (c :: rest) || listContains sub rest

/-- Model of JavaScript `String.prototype.includes`. -/
def msgIncludes (msg sub : String) : Bool :=
  listContains sub.data msg.data

/-- The canonical verification URL built from a certId
(`https://opalforge.tech/?verify=<certId>`). -/
def verifyUrl (certId : String) : String :=
  "https://opalforge.tech/?verify=" ++ certId

def certKey (certId : String) : String := "cert:" ++ certId

def pdfKey (certId : String) : String := "pdf:" ++ certId

/-- SQLite's error message for a violated UNIQUE constraint on
`certificates.cert_id`. -/
def uniqueViolationMsg : String :=
  "UNIQUE constraint failed: certificates.cert_id"

/-- D1 `INSERT INTO certificates ...`: the schema's UNIQUE constraint on
`cert_id` rejects a duplicate with `uniqueViolationMsg`. -/
def d1Insert (st : Store) (row : CertRow) : Except String Store :=
  if st.any (fun r => r.certId == row.certId) then
    .error uniqueViolationMsg
  else
    .ok (st ++ [row])

/-- The verify handler's
`SELECT cert_id as certId, confidence, timestamp, status FROM
certificates WHERE cert_id = ?` followed by `.first()`. -/
def d1SelectCert (st : Store) (certId : String) : Option CertJson :=
  (st.find? (fun r => r.certId == certId)).map
    (fun r => ⟨r.certId, r.confidence, r.timestamp, r.status⟩)

/-- The exists handler's
`SELECT 1 FROM certificates WHERE cert_id = ?` followed by `.first()`,
used only for its truthiness. -/
def d1SelectOne (st : Store) (certId : String) : Bool :=
  st.any (fun r => r.certId == certId)

def cacheLookup (c : Cache) (certId : String) : Option CertJson :=
  (c.find? (fun p => p.1 == certId)).map Prod.snd

def cacheStore (c : Cache) (certId : String) (v : CertJson) : Cache :=
  (certId, v) :: c.filter (fun p => !(p.1 == certId))

/-- The parsed JSON body of `POST /certificate`.  A field that is absent
(or JS `undefined`) is `none`; `data.confidence === undefined` is the
only confidence check the code makes, so presence is what matters. -/
structure CreateRequest where
  certId : Option String
  confidence : Option ℚ
  timestamp : Option String
  qrPayload : Option String
deriving DecidableEq, Repr

/-- The color the renderer selects for the score text, as an RGB
triple. -/
def scoreColorOf (confidence : ℚ) : ℕ × ℕ × ℕ :=
  if confidence ≥ 85 then (34, 197, 94)
  else if confidence ≥ 50 then (234, 179, 8)
  else (239, 68, 68)

/-- `confidence.toFixed(1)`: `|q| * 10` rounded half-up to a whole
number of tenths — computed on the reduced fraction, since
`⌊|q| * 10 + 1/2⌋ = (20 * |q.num| + q.den) / (2 * q.den)` in natural
division (`toFixed1_round_eq` below certifies this) — then printed with
exactly one digit after the decimal point and a leading sign. -/
def toFixed1 (q : ℚ) : String :=
  let t : ℕ := (20 * q.num.natAbs + q.den) / (2 * q.den)
  (if q < 0 then "-" else "") ++ toString (t / 10) ++ "." ++ toString (t % 10)

/-- The content-determining fields of the PDF `handleGeneratePDF`
draws: the certificate id printed on the page, the string encoded into
the QR image, the color chosen for the score, and the score text. -/
structure PdfRender where
  certId : String
  qrData : String
  scoreColor : ℕ × ℕ × ℕ
  scoreText : String
deriving DecidableEq, Repr

/-- The deterministic document build inside `handleGeneratePDF`
(lines 241–349): fixed layout, score color tiering, score text
`confidence.toFixed(1) + "%"`, QR raster of `qrData`. -/
def renderCertificate (certId qrData : String) (confidence : ℚ) : PdfRender :=
  ⟨certId, qrData, scoreColorOf confidence, toFixed1 confidence ++ "%"⟩

/-- `Content-Disposition` filename of the local-rendering path. -/
def pdfFilename (certId : String) : String :=
  "OpalForge_" ++ certId ++ ".pdf"

/-- The worker's possible responses (status code plus the payload the
body carries).  `serverErr` is the outer `fetch` catch block: 500 with
the escaped error's message. -/
inductive Resp
  | createdOk (certId : String)
  | validationErr
  | conflictErr
  | certFound (c : CertJson)
  | notFound
  | existsOk
  | existsNotFound
  | pdfOk (certId : String) (doc : PdfRender)
  | serverErr (msg : String)
deriving DecidableEq, Repr

def Resp.status : Resp → ℕ
  | .createdOk _ => 201
  | .validationErr => 400
  | .conflictErr => 409
  | .certFound _ => 200
  | .notFound => 404
  | .existsOk => 200
  | .existsNotFound => 404
  | .pdfOk _ _ => 200
  | .serverErr _ => 500

/-- The error mapping of `handleCreateCertificate`'s catch block: an
error whose message includes "UNIQUE" becomes 409, anything else is
rethrown and becomes the outer 500. -/
def createMapError (msg : String) : Resp :=
  if msgIncludes msg "UNIQUE" then .conflictErr else .serverErr msg

structure CreateResult where
  resp : Resp
  store : Store
  cache : Cache
  effects : List Effect
deriving DecidableEq, Repr

/-- `handleCreateCertificate` (lines 113–169).  `now1` is the clock
reading of the `new Date().toISOString()` at the D1 insert (line 132),
`now2` the one at the KV put (line 141); `kvPut` is the outcome of the
awaited `env.KV.put`.  Validation (`!data.certId ||
data.confidence === undefined`) rejects with 400 before any store
access.  A failure anywhere in the try block lands in the catch: 409
when the message includes "UNIQUE", otherwise the rethrow reaches the
outer handler's 500. -/
def handleCreateCertificate (data : CreateRequest) (now1 now2 : String)
    (st : Store) (cache : Cache) (kvPut : FailWith) : CreateResult :=
  match data.certId, data.confidence with
  | some cid, some conf =>
    if cid = "" then ⟨.validationErr, st, cache, []⟩
    else
      let row : CertRow :=
        ⟨cid, conf, jsOr data.timestamp now1,
         some (jsOr data.qrPayload (verifyUrl cid)), "active"⟩
      match d1Insert st row with
      | .error msg => ⟨createMapError msg, st, cache, [.storeInsert cid]⟩
      | .ok st' =>
        let entry : CertJson := ⟨cid, conf, jsOr data.timestamp now2, "active"⟩
        match kvPut with
        | some msg =>
            ⟨createMapError msg, st', cache,
             [.storeInsert cid, .cachePut (certKey cid)]⟩
        | none =>
            ⟨.createdOk cid, st', cacheStore cache cid entry,
             [.storeInsert cid, .cachePut (certKey cid)]⟩
  | _, _ => ⟨.validationErr, st, cache, []⟩

structure LookupResult where
  resp : Resp
  cache : Cache
  effects : List Effect
deriving DecidableEq, Repr

/-- `handleVerifyCertificate` (lines 171–203).  `kvGet` / `kvPut` are
the outcomes of the awaited `env.KV.get` and the write-back
`env.KV.put`; neither call site sits in a try/catch, so a thrown cache
error propagates to the outer handler's 500. -/
def handleVerifyCertificate (certId : String) (st : Store) (cache : Cache)
    (kvGet kvPut : FailWith) : LookupResult :=
  match kvGet with
  | some msg => ⟨.serverErr msg, cache, [.cacheGet (certKey certId)]⟩
  | none =>
    match cacheLookup cache certId with
    | some c => ⟨.certFound c, cache, [.cacheGet (certKey certId)]⟩
    | none =>
      match d1SelectCert st certId with
      | some result =>
        match kvPut with
        | some msg =>
            ⟨.serverErr msg, cache,
             [.cacheGet (certKey certId), .storeQuery certId,
              .cachePut (certKey certId)]⟩
        | none =>
            ⟨.certFound result, cacheStore cache certId result,
             [.cacheGet (certKey certId), .storeQuery certId,
              .cachePut (certKey certId)]⟩
      | none =>
          ⟨.notFound, cache,
           [.cacheGet (certKey certId), .storeQuery certId]⟩

/-- `handleCertificateExists` (lines 205–222): same two-tier lookup
as verify, body-less 200/404; the `env.KV.get` is likewise outside any
try/catch. -/
def handleCertificateExists (certId : String) (st : Store) (cache : Cache)
    (kvGet : FailWith) : LookupResult :=
  match kvGet with
  | some msg => ⟨.serverErr msg, cache, [.cacheGet (certKey certId)]⟩
  | none =>
    match cacheLookup cache certId with
    | some _ => ⟨.existsOk, cache, [.cacheGet (certKey certId)]⟩
    | none =>
      if d1SelectOne st certId then
        ⟨.existsOk, cache, [.cacheGet (certKey certId), .storeQuery certId]⟩
      else
        ⟨.existsNotFound, cache,
         [.cacheGet (certKey certId), .storeQuery certId]⟩

structure PdfResult where
  resp : Resp
  effects : List Effect
deriving DecidableEq, Repr

/-- `handleGeneratePDF` (lines 224–364): QR-encode `qrData`, build the
document, cache the bytes under `pdf:<certId>` (outcome `kvPut`), and
return them.  The handler receives the store and cert cache but its
body never touches them: there is no record lookup on this path. -/
def handleGeneratePDF (certId qrData : String) (confidence : ℚ)
    (st : Store) (cache : Cache) (kvPut : FailWith) : PdfResult :=
  let doc := renderCertificate certId qrData confidence
  match kvPut with
  | some msg => ⟨.serverErr msg, [.qrEncode qrData, .cachePut (pdfKey certId)]⟩
  | none => ⟨.pdfOk certId doc, [.qrEncode qrData, .cachePut (pdfKey certId)]⟩

def digitsVal (ds : List Char) : ℕ :=
  ds.foldl (fun a c => a * 10 + (c.toNat - 48)) 0

/-- Model of JavaScript `parseFloat` on plain decimal numerals
(optional sign, integer digits, optional fractional digits) — the only
shapes this worker feeds it.  NaN propagation for non-numeric input is
outside the model (no route in scope produces one). -/
def parseFloatModel (s : String) : ℚ :=
  let cs := s.data
  let signed : Bool × List Char :=
    match cs with
    | '-' :: r => (true, r)
    | '+' :: r => (false, r)
    | _ => (false, cs)
  let ip := signed.2.takeWhile Char.isDigit
  let rest := signed.2.dropWhile Char.isDigit
  let fp : List Char :=
    match rest with
    | '.' :: r => r.takeWhile Char.isDigit
    | _ => []
  let mag : ℚ := mkRat (digitsVal ip * 10 ^ fp.length + digitsVal fp) (10 ^ fp.length)
  if signed.1 then -mag else mag

/-- The `GET /certificate/:id/pdf` route arm of `fetch` (lines 74–79):
`qrData` defaults to the canonical verification URL, `confidence`
defaults to the string "0" and is run through `parseFloat`, then
`handleGeneratePDF` is called. -/
def fetchPdfRoute (certId : String) (qrDataParam confidenceParam : Option String)
    (st : Store) (cache : Cache) (kvPut : FailWith) : PdfResult :=
  let qrData := jsOr qrDataParam (verifyUrl certId)
  let confidence := parseFloatModel (jsOr confidenceParam "0")
  handleGeneratePDF certId qrData confidence st cache kvPut

/-! ## General-purpose lemmas -/

theorem jsOr_eq_of_choice (ts : Option String) (n1 n2 : String)
    (h : (ts ≠ none ∧ ts ≠ some "") ∨ n1 = n2) : jsOr ts n1 = jsOr ts n2 := by
  rcases h with ⟨hne, hnee⟩ | rfl
  · match ts, hne, hnee with
    | some s, _, hnee =>
      have hs : ¬ s = "" := fun hs => hnee (by simp [hs])
      simp [jsOr, hs]
  · rfl

theorem find?_append_singleton {α : Type} (p : α → Bool) (l : List α) (a : α)
    (h : l.any p = false) (ha : p a = true) : (l ++ [a]).find? p = some a := by
  induction l with
  | nil => simp [List.find?, ha]
  | cons x xs ih =>
    simp only [List.any_cons, Bool.or_eq_false_iff] at h
    simp only [List.cons_append, List.find?]
    rw [h.1]
    exact ih h.2

theorem filter_append_singleton {α : Type} (p : α → Bool) (l : List α) (a : α)
    (h : l.any p = false) : (l ++ [a]).filter p = if p a then [a] else [] := by
  induction l with
  | nil => cases hpa : p a <;> simp [List.filter, hpa]
  | cons x xs ih =>
    simp only [List.any_cons, Bool.or_eq_false_iff] at h
    simp only [List.cons_append, List.filter]
    rw [h.1]
    exact ih h.2

theorem any_append_singleton {α : Type} (p : α → Bool) (l : List α) (a : α)
    (ha : p a = true) : (l ++ [a]).any p = true := by
  induction l with
  | nil => simp [ha]
  | cons x xs ih => simp only [List.cons_append, List.any_cons, ih, Bool.or_true]

theorem mem_append_singleton_of_not_mem {α : Type} {l : List α} {a r : α}
    (hr : r ∈ l ++ [a]) (hnot : r ∉ l) : r = a := by
  rcases List.mem_append.mp hr with h | h
  · exact absurd h hnot
  · simpa using h

theorem cacheLookup_cacheStore_self (c : Cache) (id : String) (v : CertJson) :
    cacheLookup (cacheStore c id v) id = some v := by
  simp [cacheLookup, cacheStore, List.find?]

theorem d1SelectCert_append (st : Store) (row : CertRow)
    (h : st.any (fun r => r.certId == row.certId) = false) :
    d1SelectCert (st ++ [row]) row.certId
      = some ⟨row.certId, row.confidence, row.timestamp, row.status⟩ := by
  unfold d1SelectCert
  rw [find?_append_singleton _ _ _ h (by simp)]
  rfl

theorem cacheLookup_nil (id : String) : cacheLookup [] id = none := rfl

/-- Certifies the natural-number rounding used by `toFixed1`: it equals
`⌊|q| * 10 + 1/2⌋` computed in ℚ. -/
theorem toFixed1_round_eq (q : ℚ) :
    (((20 * q.num.natAbs + q.den) / (2 * q.den) : ℕ) : ℤ) = ⌊|q| * 10 + 1 / 2⌋ := by
  have hdenpos : (0 : ℚ) < (q.den : ℚ) := by exact_mod_cast q.den_pos
  have habs : |q| = ((q.num.natAbs : ℚ)) / (q.den : ℚ) := by
    conv_lhs => rw [← Rat.num_div_den q]
    rw [abs_div, Int.cast_natAbs, Int.cast_abs, abs_of_pos hdenpos]
  have key : |q| * 10 + 1 / 2
      = ((20 * q.num.natAbs + q.den : ℕ) : ℚ) / ((2 * q.den : ℕ) : ℚ) := by
    rw [habs]
    push_cast
    field_simp
    ring
  rw [key, Rat.floor_natCast_div_natCast]
  exact Int.ofNat_div _ _

/-! ## C1 — read-through correctness -/

/-- A create request with no `timestamp`, executed while the wall clock
ticks from `...00.000Z` (at the D1 insert, line 132) to `...00.001Z`
(at the KV put, line 141). -/
def c1Create : CreateResult :=
  handleCreateCertificate ⟨some "OF-1", some 90, none, none⟩
    "2025-01-01T00:00:00.000Z" "2025-01-01T00:00:00.001Z" [] [] none

/-- C1 as stated is false: when the create request omits `timestamp`,
the code evaluates `new Date().toISOString()` once for the Store insert
and again for the cache write, so a warm-cache `verify` can return a
`timestamp` different from the one stored in the durable Store. -/
theorem c1_read_through_counterexample :
    c1Create.resp = .createdOk "OF-1" ∧
    d1SelectCert c1Create.store "OF-1"
      = some ⟨"OF-1", 90, "2025-01-01T00:00:00.000Z", "active"⟩ ∧
    (handleVerifyCertificate "OF-1" c1Create.store c1Create.cache none none).resp
      = .certFound ⟨"OF-1", 90, "2025-01-01T00:00:00.001Z", "active"⟩ ∧
    (⟨"OF-1", 90, "2025-01-01T00:00:00.001Z", "active"⟩ : CertJson)
      ≠ ⟨"OF-1", 90, "2025-01-01T00:00:00.000Z", "active"⟩ := by
  refine ⟨by decide, by decide, by decide, by decide⟩

/-- C1 (amended): provided the create request carries a timestamp, or
the two clock readings taken during the create coincide, `verify`
returns exactly the Store row's fields whether the cache is warm (the
create's own cache entry) or cold (any cache with no entry for the id),
and the cold read's write-back entry is exactly the Store row's
projection. -/
theorem c1_read_through_amended (cid : String) (conf : ℚ) (ts qp : Option String)
    (now1 now2 : String) (st : Store) (cache cache' : Cache)
    (hcid : cid ≠ "")
    (hfresh : st.any (fun r => r.certId == cid) = false)
    (hts : (ts ≠ none ∧ ts ≠ some "") ∨ now1 = now2)
    (hmiss : cacheLookup cache' cid = none) :
    (handleCreateCertificate ⟨some cid, some conf, ts, qp⟩ now1 now2 st cache none).resp
      = .createdOk cid ∧
    d1SelectCert
        (handleCreateCertificate ⟨some cid, some conf, ts, qp⟩ now1 now2 st cache none).store cid
      = some ⟨cid, conf, jsOr ts now1, "active"⟩ ∧
    (handleVerifyCertificate cid
        (handleCreateCertificate ⟨some cid, some conf, ts, qp⟩ now1 now2 st cache none).store
        (handleCreateCertificate ⟨some cid, some conf, ts, qp⟩ now1 now2 st cache none).cache
        none none).resp
      = .certFound ⟨cid, conf, jsOr ts now1, "active"⟩ ∧
    (handleVerifyCertificate cid
        (handleCreateCertificate ⟨some cid, some conf, ts, qp⟩ now1 now2 st cache none).store
        cache' none none).resp
      = .certFound ⟨cid, conf, jsOr ts now1, "active"⟩ ∧
    cacheLookup
        (handleVerifyCertificate cid
          (handleCreateCertificate ⟨some cid, some conf, ts, qp⟩ now1 now2 st cache none).store
          cache' none none).cache cid
      = some ⟨cid, conf, jsOr ts now1, "active"⟩ := by
  have hrow : d1Insert st ⟨cid, conf, jsOr ts now1, some (jsOr qp (verifyUrl cid)), "active"⟩
      = .ok (st ++ [⟨cid, conf, jsOr ts now1, some (jsOr qp (verifyUrl cid)), "active"⟩]) := by
    simp [d1Insert, hfresh]
  have hcr : handleCreateCertificate ⟨some cid, some conf, ts, qp⟩ now1 now2 st cache none
      = ⟨.createdOk cid,
         st ++ [⟨cid, conf, jsOr ts now1, some (jsOr qp (verifyUrl cid)), "active"⟩],
         cacheStore cache cid ⟨cid, conf, jsOr ts now2, "active"⟩,
         [.storeInsert cid, .cachePut (certKey cid)]⟩ := by
    simp only [handleCreateCertificate]
    rw [if_neg hcid]
    rw [hrow]
  have hts2 : jsOr ts now2 = jsOr ts now1 :=
    jsOr_eq_of_choice ts now2 now1 (hts.imp id Eq.symm)
  have hsel : d1SelectCert
        (st ++ [⟨cid, conf, jsOr ts now1, some (jsOr qp (verifyUrl cid)), "active"⟩]) cid
      = some ⟨cid, conf, jsOr ts now1, "active"⟩ :=
    d1SelectCert_append st ⟨cid, conf, jsOr ts now1, some (jsOr qp (verifyUrl cid)), "active"⟩ hfresh
  rw [hcr]
  refine ⟨rfl, hsel, ?_, ?_, ?_⟩
  · show (handleVerifyCertificate cid _ (cacheStore cache cid ⟨cid, conf, jsOr ts now2, "active"⟩)
        none none).resp = _
    simp only [handleVerifyCertificate, cacheLookup_cacheStore_self]
    rw [hts2]
  · show (handleVerifyCertificate cid _ cache' none none).resp = _
    simp only [handleVerifyCertificate, hmiss, hsel]
  · show cacheLookup (handleVerifyCertificate cid _ cache' none none).cache cid = _
    simp only [handleVerifyCertificate, hmiss, hsel]
    exact cacheLookup_cacheStore_self cache' cid _

/-- C1 amended, witnessed at a concrete input (timestamp supplied). -/
theorem c1_read_through_witness :
    (handleCreateCertificate ⟨some "W1", some 88, some "TS0", none⟩ "N1" "N2" [] [] none).resp
      = .createdOk "W1" ∧
    d1SelectCert
        (handleCreateCertificate ⟨some "W1", some 88, some "TS0", none⟩ "N1" "N2" [] [] none).store "W1"
      = some ⟨"W1", 88, jsOr (some "TS0") "N1", "active"⟩ ∧
    (handleVerifyCertificate "W1"
        (handleCreateCertificate ⟨some "W1", some 88, some "TS0", none⟩ "N1" "N2" [] [] none).store
        (handleCreateCertificate ⟨some "W1", some 88, some "TS0", none⟩ "N1" "N2" [] [] none).cache
        none none).resp
      = .certFound ⟨"W1", 88, jsOr (some "TS0") "N1", "active"⟩ ∧
    (handleVerifyCertificate "W1"
        (handleCreateCertificate ⟨some "W1", some 88, some "TS0", none⟩ "N1" "N2" [] [] none).store
        [] none none).resp
      = .certFound ⟨"W1", 88, jsOr (some "TS0") "N1", "active"⟩ ∧
    cacheLookup
        (handleVerifyCertificate "W1"
          (handleCreateCertificate ⟨some "W1", some 88, some "TS0", none⟩ "N1" "N2" [] [] none).store
          [] none none).cache "W1"
      = some ⟨"W1", 88, jsOr (some "TS0") "N1", "active"⟩ :=
  c1_read_through_amended "W1" 88 (some "TS0") none "N1" "N2" [] [] []
    (by decide) (by decide) (Or.inl ⟨by decide, by decide⟩) rfl

/-! ## C2 — cache-write failure at create -/

/-- A valid create on an empty store whose D1 insert succeeds and whose
subsequent `env.KV.put` throws "KV write failed". -/
def c2Create : CreateResult :=
  handleCreateCertificate ⟨some "OF-2", some 75, some "2025-01-02T00:00:00.000Z", none⟩
    "N1" "N2" [] [] (some "KV write failed")

/-- C2 as stated is false: the `await env.KV.put` sits inside the same
try block as the insert with no handler of its own, so its failure is
rethrown by the catch (the message does not contain "UNIQUE") and the
create responds 500, not 201 — even though the Store row is already
committed. -/
theorem c2_cache_write_counterexample :
    c2Create.resp = .serverErr "KV write failed" ∧
    Resp.status c2Create.resp = 500 ∧
    c2Create.resp ≠ .createdOk "OF-2" ∧
    c2Create.store
      = [⟨"OF-2", 75, "2025-01-02T00:00:00.000Z", some (verifyUrl "OF-2"), "active"⟩] := by
  refine ⟨by decide, by decide, by decide, by decide⟩

/-- C2 (amended): when the Store insert succeeds and the subsequent
cache write fails (with a message not containing "UNIQUE"), the Store
row remains committed — the durable write is not rolled back — but the
create reports a 500 error instead of 201. -/
theorem c2_cache_write_amended (cid : String) (conf : ℚ) (ts qp : Option String)
    (now1 now2 : String) (st : Store) (cache : Cache) (msg : String)
    (hcid : cid ≠ "")
    (hfresh : st.any (fun r => r.certId == cid) = false)
    (hmsg : msgIncludes msg "UNIQUE" = false) :
    (handleCreateCertificate ⟨some cid, some conf, ts, qp⟩ now1 now2 st cache (some msg)).resp
      = .serverErr msg ∧
    Resp.status
        (handleCreateCertificate ⟨some cid, some conf, ts, qp⟩ now1 now2 st cache (some msg)).resp
      = 500 ∧
    (handleCreateCertificate ⟨some cid, some conf, ts, qp⟩ now1 now2 st cache (some msg)).store
      = st ++ [⟨cid, conf, jsOr ts now1, some (jsOr qp (verifyUrl cid)), "active"⟩] := by
  have hrow : d1Insert st ⟨cid, conf, jsOr ts now1, some (jsOr qp (verifyUrl cid)), "active"⟩
      = .ok (st ++ [⟨cid, conf, jsOr ts now1, some (jsOr qp (verifyUrl cid)), "active"⟩]) := by
    simp [d1Insert, hfresh]
  have hcr : handleCreateCertificate ⟨some cid, some conf, ts, qp⟩ now1 now2 st cache (some msg)
      = ⟨createMapError msg,
         st ++ [⟨cid, conf, jsOr ts now1, some (jsOr qp (verifyUrl cid)), "active"⟩],
         cache, [.storeInsert cid, .cachePut (certKey cid)]⟩ := by
    simp only [handleCreateCertificate]
    rw [if_neg hcid]
    rw [hrow]
  have herr : createMapError msg = .serverErr msg := by
    simp [createMapError, hmsg]
  rw [hcr, herr]
  exact ⟨rfl, rfl, rfl⟩

/-- C2 amended, witnessed at a concrete input. -/
theorem c2_cache_write_witness :
    (handleCreateCertificate ⟨some "W2", some 60, none, none⟩ "M1" "M2" [] []
        (some "kv unavailable")).resp
      = .serverErr "kv unavailable" ∧
    Resp.status
        (handleCreateCertificate ⟨some "W2", some 60, none, none⟩ "M1" "M2" [] []
          (some "kv unavailable")).resp
      = 500 ∧
    (handleCreateCertificate ⟨some "W2", some 60, none, none⟩ "M1" "M2" [] []
        (some "kv unavailable")).store
      = [] ++ [⟨"W2", 60, jsOr none "M1", some (jsOr none (verifyUrl "W2")), "active"⟩] :=
  c2_cache_write_amended "W2" 60 none none "M1" "M2" [] [] "kv unavailable"
    (by decide) (by decide) (by decide)

/-! ## C3 — cache-read errors on verify and exists -/

/-- A store holding `OF-3`, an empty cache, and a `KV.get` that throws
"KV down". -/
def c3Store : Store := [⟨"OF-3", 80, "2025-01-03T00:00:00.000Z", none, "active"⟩]

/-- C3 as stated is false: `env.KV.get` is not wrapped in any try/catch
inside `handleVerifyCertificate` or `handleCertificateExists`, so a
thrown cache error surfaces as a 500 to the caller instead of falling
through to the Store — which, on a genuine miss, would have found the
certificate and returned 200. -/
theorem c3_cache_read_counterexample :
    (handleVerifyCertificate "OF-3" c3Store [] (some "KV down") none).resp
      = .serverErr "KV down" ∧
    Resp.status (handleVerifyCertificate "OF-3" c3Store [] (some "KV down") none).resp = 500 ∧
    (handleVerifyCertificate "OF-3" c3Store [] none none).resp
      = .certFound ⟨"OF-3", 80, "2025-01-03T00:00:00.000Z", "active"⟩ ∧
    (handleCertificateExists "OF-3" c3Store [] (some "KV down")).resp
      = .serverErr "KV down" ∧
    (handleCertificateExists "OF-3" c3Store [] none).resp = .existsOk := by
  refine ⟨by decide, by decide, by decide, by decide, by decide⟩

/-- C3 (amended): a cache error during the read is not swallowed —
`verify` and `exists` respond 500 with the cache error's message; the
fall-through to the Store happens only when the cache read itself
succeeds and finds no entry, in which case the result is the same as
with an empty cache. -/
theorem c3_cache_read_amended (certId : String) (st : Store) (cache : Cache)
    (msg : String) (kvPut : FailWith)
    (hmiss : cacheLookup cache certId = none) :
    (handleVerifyCertificate certId st cache (some msg) kvPut).resp = .serverErr msg ∧
    Resp.status (handleVerifyCertificate certId st cache (some msg) kvPut).resp = 500 ∧
    (handleCertificateExists certId st cache (some msg)).resp = .serverErr msg ∧
    (handleVerifyCertificate certId st cache none kvPut).resp
      = (handleVerifyCertificate certId st [] none kvPut).resp ∧
    (handleCertificateExists certId st cache none).resp
      = (handleCertificateExists certId st [] none).resp := by
  refine ⟨rfl, rfl, rfl, ?_, ?_⟩
  · simp only [handleVerifyCertificate, hmiss, cacheLookup_nil]
    cases d1SelectCert st certId with
    | none => rfl
    | some result => cases kvPut <;> rfl
  · simp only [handleCertificateExists, hmiss, cacheLookup_nil]
    cases hd : d1SelectOne st certId <;> simp [hd]

/-- C3 amended, witnessed at a concrete input. -/
theorem c3_cache_read_witness :
    (handleVerifyCertificate "W3" [] [] (some "cache error") none).resp
      = .serverErr "cache error" ∧
    Resp.status (handleVerifyCertificate "W3" [] [] (some "cache error") none).resp = 500 ∧
    (handleCertificateExists "W3" [] [] (some "cache error")).resp = .serverErr "cache error" ∧
    (handleVerifyCertificate "W3" [] [] none none).resp
      = (handleVerifyCertificate "W3" [] [] none none).resp ∧
    (handleCertificateExists "W3" [] [] none).resp
      = (handleCertificateExists "W3" [] [] none).resp :=
  c3_cache_read_amended "W3" [] [] "cache error" none rfl

/-! ## C4 — uniqueness of certIds -/

/-- C4: creating the same certId twice (with the cache writes
succeeding) yields one 201 success and one 409 conflict, surfaced as
the distinguishable "already exists" response rather than a generic
500, and the Store ends with exactly one row for that certId. -/
theorem c4_uniqueness (cid : String) (conf1 conf2 : ℚ) (ts1 ts2 qp1 qp2 : Option String)
    (now1 now2 now3 now4 : String) (st : Store) (cache : Cache)
    (hcid : cid ≠ "")
    (hfresh : st.any (fun r => r.certId == cid) = false) :
    (handleCreateCertificate ⟨some cid, some conf1, ts1, qp1⟩ now1 now2 st cache none).resp
      = .createdOk cid ∧
    Resp.status
        (handleCreateCertificate ⟨some cid, some conf1, ts1, qp1⟩ now1 now2 st cache none).resp
      = 201 ∧
    (handleCreateCertificate ⟨some cid, some conf2, ts2, qp2⟩ now3 now4
        (handleCreateCertificate ⟨some cid, some conf1, ts1, qp1⟩ now1 now2 st cache none).store
        (handleCreateCertificate ⟨some cid, some conf1, ts1, qp1⟩ now1 now2 st cache none).cache
        none).resp
      = .conflictErr ∧
    Resp.status
        (handleCreateCertificate ⟨some cid, some conf2, ts2, qp2⟩ now3 now4
          (handleCreateCertificate ⟨some cid, some conf1, ts1, qp1⟩ now1 now2 st cache none).store
          (handleCreateCertificate ⟨some cid, some conf1, ts1, qp1⟩ now1 now2 st cache none).cache
          none).resp
      = 409 ∧
    (∀ m, Resp.conflictErr ≠ .serverErr m) ∧
    (handleCreateCertificate ⟨some cid, some conf2, ts2, qp2⟩ now3 now4
        (handleCreateCertificate ⟨some cid, some conf1, ts1, qp1⟩ now1 now2 st cache none).store
        (handleCreateCertificate ⟨some cid, some conf1, ts1, qp1⟩ now1 now2 st cache none).cache
        none).store
      = (handleCreateCertificate ⟨some cid, some conf1, ts1, qp1⟩ now1 now2 st cache none).store ∧
    ((handleCreateCertificate ⟨some cid, some conf2, ts2, qp2⟩ now3 now4
        (handleCreateCertificate ⟨some cid, some conf1, ts1, qp1⟩ now1 now2 st cache none).store
        (handleCreateCertificate ⟨some cid, some conf1, ts1, qp1⟩ now1 now2 st cache none).cache
        none).store.filter (fun r => r.certId == cid)).length = 1 := by
  have hrow : d1Insert st ⟨cid, conf1, jsOr ts1 now1, some (jsOr qp1 (verifyUrl cid)), "active"⟩
      = .ok (st ++ [⟨cid, conf1, jsOr ts1 now1, some (jsOr qp1 (verifyUrl cid)), "active"⟩]) := by
    simp [d1Insert, hfresh]
  have hcr1 : handleCreateCertificate ⟨some cid, some conf1, ts1, qp1⟩ now1 now2 st cache none
      = ⟨.createdOk cid,
         st ++ [⟨cid, conf1, jsOr ts1 now1, some (jsOr qp1 (verifyUrl cid)), "active"⟩],
         cacheStore cache cid ⟨cid, conf1, jsOr ts1 now2, "active"⟩,
         [.storeInsert cid, .cachePut (certKey cid)]⟩ := by
    simp only [handleCreateCertificate]
    rw [if_neg hcid]
    rw [hrow]
  have hdup : (st ++ [(⟨cid, conf1, jsOr ts1 now1, some (jsOr qp1 (verifyUrl cid)),
        "active"⟩ : CertRow)]).any (fun r => r.certId == cid) = true :=
    any_append_singleton (fun r : CertRow => r.certId == cid) st
      ⟨cid, conf1, jsOr ts1 now1, some (jsOr qp1 (verifyUrl cid)), "active"⟩ (by simp)
  have hins2 : d1Insert
        (st ++ [⟨cid, conf1, jsOr ts1 now1, some (jsOr qp1 (verifyUrl cid)), "active"⟩])
        ⟨cid, conf2, jsOr ts2 now3, some (jsOr qp2 (verifyUrl cid)), "active"⟩
      = .error uniqueViolationMsg := by
    simp [d1Insert, hdup]
  have hcr2 : handleCreateCertificate ⟨some cid, some conf2, ts2, qp2⟩ now3 now4
        (st ++ [⟨cid, conf1, jsOr ts1 now1, some (jsOr qp1 (verifyUrl cid)), "active"⟩])
        (cacheStore cache cid ⟨cid, conf1, jsOr ts1 now2, "active"⟩) none
      = ⟨createMapError uniqueViolationMsg,
         st ++ [⟨cid, conf1, jsOr ts1 now1, some (jsOr qp1 (verifyUrl cid)), "active"⟩],
         cacheStore cache cid ⟨cid, conf1, jsOr ts1 now2, "active"⟩,
         [.storeInsert cid]⟩ := by
    simp only [handleCreateCertificate]
    rw [if_neg hcid]
    rw [hins2]
  have hconfl : createMapError uniqueViolationMsg = .conflictErr := by decide
  rw [hcr1]
  rw [hcr2, hconfl]
  refine ⟨rfl, rfl, rfl, rfl, fun m => by simp, rfl, ?_⟩
  rw [filter_append_singleton _ st _ hfresh]
  simp

/-- C4, witnessed at a concrete input. -/
theorem c4_uniqueness_witness :
    (handleCreateCertificate ⟨some "W4", some 91, none, none⟩ "A1" "A2" [] [] none).resp
      = .createdOk "W4" ∧
    (handleCreateCertificate ⟨some "W4", some 12, none, none⟩ "A3" "A4"
        (handleCreateCertificate ⟨some "W4", some 91, none, none⟩ "A1" "A2" [] [] none).store
        (handleCreateCertificate ⟨some "W4", some 91, none, none⟩ "A1" "A2" [] [] none).cache
        none).resp
      = .conflictErr ∧
    ((handleCreateCertificate ⟨some "W4", some 12, none, none⟩ "A3" "A4"
        (handleCreateCertificate ⟨some "W4", some 91, none, none⟩ "A1" "A2" [] [] none).store
        (handleCreateCertificate ⟨some "W4", some 91, none, none⟩ "A1" "A2" [] [] none).cache
        none).store.filter (fun r => r.certId == "W4")).length = 1 := by
  have h := c4_uniqueness "W4" 91 12 none none none none "A1" "A2" "A3" "A4" [] []
    (by decide) (by decide)
  exact ⟨h.1, h.2.2.1, h.2.2.2.2.2.2⟩

/-! ## C5 — create validation -/

/-- C5: a create whose certId is absent or empty, or whose confidence
is absent, is rejected with 400 before any durable mutation (the Store
is unchanged and no store effect is attempted); and on any create the
inserted row carries exactly the request's confidence — it is never
defaulted. -/
theorem c5_validation (data : CreateRequest) (now1 now2 : String)
    (st : Store) (cache : Cache) (kvPut : FailWith) :
    ((data.certId = none ∨ data.certId = some "" ∨ data.confidence = none) →
      (handleCreateCertificate data now1 now2 st cache kvPut).resp = .validationErr ∧
      Resp.status (handleCreateCertificate data now1 now2 st cache kvPut).resp = 400 ∧
      (handleCreateCertificate data now1 now2 st cache kvPut).store = st ∧
      (handleCreateCertificate data now1 now2 st cache kvPut).effects = []) ∧
    (∀ cid conf, data.certId = some cid → data.confidence = some conf →
      ∀ r ∈ (handleCreateCertificate data now1 now2 st cache kvPut).store,
        r ∉ st → r.confidence = conf) := by
  obtain ⟨ocid, oconf, ts, qp⟩ := data
  constructor
  · rintro (h | h | h)
    · cases h
      cases oconf with
      | none => exact ⟨rfl, rfl, rfl, rfl⟩
      | some c => exact ⟨rfl, rfl, rfl, rfl⟩
    · cases h
      cases oconf with
      | none => exact ⟨rfl, rfl, rfl, rfl⟩
      | some c => exact ⟨rfl, rfl, rfl, rfl⟩
    · cases h
      cases ocid with
      | none => exact ⟨rfl, rfl, rfl, rfl⟩
      | some cid =>
        by_cases hc : cid = ""
        · subst hc
          exact ⟨rfl, rfl, rfl, rfl⟩
        · exact ⟨rfl, rfl, rfl, rfl⟩
  · rintro cid conf rfl rfl r hr hnot
    by_cases hc : cid = ""
    · subst hc
      simp only [handleCreateCertificate, reduceIte] at hr
      exact absurd hr hnot
    · cases hf : st.any (fun x => x.certId == cid) with
      | true =>
        have hrow : d1Insert st
            ⟨cid, conf, jsOr ts now1, some (jsOr qp (verifyUrl cid)), "active"⟩
            = .error uniqueViolationMsg := by
          simp [d1Insert, hf]
        have hst : (handleCreateCertificate ⟨some cid, some conf, ts, qp⟩
            now1 now2 st cache kvPut).store = st := by
          simp only [handleCreateCertificate]
          rw [if_neg hc]
          rw [hrow]
        rw [hst] at hr
        exact absurd hr hnot
      | false =>
        have hrow : d1Insert st
            ⟨cid, conf, jsOr ts now1, some (jsOr qp (verifyUrl cid)), "active"⟩
            = .ok (st ++ [⟨cid, conf, jsOr ts now1, some (jsOr qp (verifyUrl cid)), "active"⟩]) := by
          simp [d1Insert, hf]
        have hst : (handleCreateCertificate ⟨some cid, some conf, ts, qp⟩
            now1 now2 st cache kvPut).store
            = st ++ [⟨cid, conf, jsOr ts now1, some (jsOr qp (verifyUrl cid)), "active"⟩] := by
          cases kvPut with
          | none =>
            simp only [handleCreateCertificate]
            rw [if_neg hc]
            rw [hrow]
          | some m =>
            simp only [handleCreateCertificate]
            rw [if_neg hc]
            rw [hrow]
        rw [hst] at hr
        have heq := mem_append_singleton_of_not_mem hr hnot
        rw [heq]

/-- C5, witnessed at a concrete input (missing confidence). -/
theorem c5_validation_witness :
    (handleCreateCertificate ⟨some "W5", none, none, none⟩ "B1" "B2" [] [] none).resp
        = .validationErr ∧
    Resp.status
        (handleCreateCertificate ⟨some "W5", none, none, none⟩ "B1" "B2" [] [] none).resp
      = 400 ∧
    (handleCreateCertificate ⟨some "W5", none, none, none⟩ "B1" "B2" [] [] none).store = [] ∧
    (handleCreateCertificate ⟨some "W5", none, none, none⟩ "B1" "B2" [] [] none).effects = [] :=
  (c5_validation ⟨some "W5", none, none, none⟩ "B1" "B2" [] [] none).1
    (Or.inr (Or.inr rfl))

/-! ## C6 — confidence color tiering -/

/-- C6: the renderer's score color is exactly the three-band tiering
from the source's if/else chain — green ("pass") for confidence ≥ 85,
yellow ("caution") for 50 ≤ confidence < 85, red ("fail") below 50 —
with the boundary values 85 and 50 falling in the higher band. -/
theorem c6_confidence_tiering (certId qrData : String) (c : ℚ) :
    (85 ≤ c → (renderCertificate certId qrData c).scoreColor = (34, 197, 94)) ∧
    (50 ≤ c → c < 85 → (renderCertificate certId qrData c).scoreColor = (234, 179, 8)) ∧
    (c < 50 → (renderCertificate certId qrData c).scoreColor = (239, 68, 68)) ∧
    (renderCertificate certId qrData 85).scoreColor = (34, 197, 94) ∧
    (renderCertificate certId qrData 50).scoreColor = (234, 179, 8) := by
  refine ⟨?_, ?_, ?_, ?_, ?_⟩
  · intro h
    simp [renderCertificate, scoreColorOf, ge_iff_le, h]
  · intro h1 h2
    simp [renderCertificate, scoreColorOf, ge_iff_le, h1, not_le.mpr h2]
  · intro h
    have h50 : ¬ 50 ≤ c := not_le.mpr h
    have h85 : ¬ 85 ≤ c := fun hc => h50 (le_trans (by norm_num) hc)
    simp [renderCertificate, scoreColorOf, ge_iff_le, h50, h85]
  · simp [renderCertificate, scoreColorOf]
  · norm_num [renderCertificate, scoreColorOf]

/-- C6, witnessed at the boundary inputs 85, 50 and at 90 in the top
band. -/
theorem c6_confidence_tiering_witness :
    (renderCertificate "W6" "Q6" 85).scoreColor = (34, 197, 94) ∧
    (renderCertificate "W6" "Q6" 50).scoreColor = (234, 179, 8) ∧
    (renderCertificate "W6" "Q6" 90).scoreColor = (34, 197, 94) := by
  have h := c6_confidence_tiering "W6" "Q6" 90
  exact ⟨h.2.2.2.1, h.2.2.2.2, h.1 (by norm_num)⟩

/-! ## C7 — default QR payload -/

/-- C7: a create without an explicit `qrPayload` stores the canonical
verification URL `https://opalforge.tech/?verify=<certId>` as the row's
`qr_payload`. -/
theorem c7_default_qr_payload (cid : String) (conf : ℚ) (ts : Option String)
    (now1 now2 : String) (st : Store) (cache : Cache) (kvPut : FailWith)
    (hcid : cid ≠ "") :
    ∀ r ∈ (handleCreateCertificate ⟨some cid, some conf, ts, none⟩ now1 now2 st cache kvPut).store,
      r ∉ st → r.qrPayload = some ("https://opalforge.tech/?verify=" ++ cid) := by
  intro r hr hnot
  cases hf : st.any (fun x => x.certId == cid) with
  | true =>
    have hrow : d1Insert st
        ⟨cid, conf, jsOr ts now1, some (jsOr none (verifyUrl cid)), "active"⟩
        = .error uniqueViolationMsg := by
      simp [d1Insert, hf]
    have hst : (handleCreateCertificate ⟨some cid, some conf, ts, none⟩
        now1 now2 st cache kvPut).store = st := by
      simp only [handleCreateCertificate]
      rw [if_neg hcid]
      rw [hrow]
    rw [hst] at hr
    exact absurd hr hnot
  | false =>
    have hrow : d1Insert st
        ⟨cid, conf, jsOr ts now1, some (jsOr none (verifyUrl cid)), "active"⟩
        = .ok (st ++ [⟨cid, conf, jsOr ts now1, some (jsOr none (verifyUrl cid)), "active"⟩]) := by
      simp [d1Insert, hf]
    have hst : (handleCreateCertificate ⟨some cid, some conf, ts, none⟩
        now1 now2 st cache kvPut).store
        = st ++ [⟨cid, conf, jsOr ts now1, some (jsOr none (verifyUrl cid)), "active"⟩] := by
      cases kvPut with
      | none =>
        simp only [handleCreateCertificate]
        rw [if_neg hcid]
        rw [hrow]
      | some m =>
        simp only [handleCreateCertificate]
        rw [if_neg hcid]
        rw [hrow]
    rw [hst] at hr
    have heq := mem_append_singleton_of_not_mem hr hnot
    rw [heq]
    rfl

/-- C7, witnessed at a concrete input: the single row the create
inserts carries the canonical URL. -/
theorem c7_default_qr_payload_witness :
    (⟨"W7", 55, jsOr none "C1", some (jsOr none (verifyUrl "W7")), "active"⟩ : CertRow).qrPayload
      = some ("https://opalforge.tech/?verify=" ++ "W7") :=
  c7_default_qr_payload "W7" 55 none "C1" "C2" [] [] none (by decide)
    ⟨"W7", 55, jsOr none "C1", some (jsOr none (verifyUrl "W7")), "active"⟩
    (by decide) (by decide)

/-! ## C8 — score text formatting -/

/-- C8: the score text is `confidence.toFixed(1)` followed by "%": one
digit after the decimal point always; confidence 72 renders "72.0%" and
confidence 100 renders "100.0%". -/
theorem c8_score_format (certId qrData : String) (c : ℚ) (hc : 0 ≤ c) :
    (renderCertificate certId qrData 72).scoreText = "72.0%" ∧
    (renderCertificate certId qrData 100).scoreText = "100.0%" ∧
    ∃ w d : ℕ, d ≤ 9 ∧
      (renderCertificate certId qrData c).scoreText
        = toString w ++ "." ++ toString d ++ "%" := by
  refine ⟨?_, ?_, ?_⟩
  · show toFixed1 72 ++ "%" = "72.0%"
    decide
  · show toFixed1 100 ++ "%" = "100.0%"
    decide
  have hneg : ¬ c < 0 := not_lt.mpr hc
  refine ⟨(20 * c.num.natAbs + c.den) / (2 * c.den) / 10,
          (20 * c.num.natAbs + c.den) / (2 * c.den) % 10, by omega, ?_⟩
  show toFixed1 c ++ "%" = _
  simp only [toFixed1]
  rw [if_neg hneg]
  rfl

/-- C8, witnessed at a concrete non-integral input. -/
theorem c8_score_format_witness :
    (renderCertificate "W8" "Q8" 72).scoreText = "72.0%" ∧
    (renderCertificate "W8" "Q8" 100).scoreText = "100.0%" :=
  ⟨(c8_score_format "W8" "Q8" 33 (by decide)).1,
   (c8_score_format "W8" "Q8" 33 (by decide)).2.1⟩

/-! ## C9 — the PDF path performs no record lookup -/

/-- C9: the local PDF path responds 200 with the rendered document for
any certId — including one never created, since the handler performs no
Store query, no Store insert and no cache read at all; its result does
not depend on the Store or cache contents, and no 404 is possible. -/
theorem c9_pdf_no_record_lookup (certId qrData : String) (confidence : ℚ)
    (st : Store) (cache : Cache) :
    (handleGeneratePDF certId qrData confidence st cache none).resp
      = .pdfOk certId (renderCertificate certId qrData confidence) ∧
    Resp.status (handleGeneratePDF certId qrData confidence st cache none).resp = 200 ∧
    ((handleGeneratePDF certId qrData confidence st cache none).effects.all
      (fun e => match e with
        | .storeQuery _ => false
        | .storeInsert _ => false
        | .cacheGet _ => false
        | _ => true)) = true ∧
    (∀ st' cache', handleGeneratePDF certId qrData confidence st' cache' none
      = handleGeneratePDF certId qrData confidence st cache none) ∧
    (∀ kvPut, Resp.status (handleGeneratePDF certId qrData confidence st cache kvPut).resp
      ≠ 404) := by
  refine ⟨rfl, rfl, rfl, fun st' cache' => rfl, fun kvPut => ?_⟩
  cases kvPut with
  | none => simp [handleGeneratePDF, Resp.status]
  | some m => simp [handleGeneratePDF, Resp.status]

/-- C9, witnessed at a certId that exists in no store. -/
theorem c9_pdf_no_record_lookup_witness :
    (handleGeneratePDF "NEVER-CREATED" "Q9" 42 [] [] none).resp
      = .pdfOk "NEVER-CREATED" (renderCertificate "NEVER-CREATED" "Q9" 42) ∧
    Resp.status (handleGeneratePDF "NEVER-CREATED" "Q9" 42 [] [] none).resp = 200 ∧
    ((handleGeneratePDF "NEVER-CREATED" "Q9" 42 [] [] none).effects.all
      (fun e => match e with
        | .storeQuery _ => false
        | .storeInsert _ => false
        | .cacheGet _ => false
        | _ => true)) = true := by
  have h := c9_pdf_no_record_lookup "NEVER-CREATED" "Q9" 42 [] []
  exact ⟨h.1, h.2.1, h.2.2.1⟩

/-! ## C10 — rendered confidence comes only from the query parameter -/

/-- C10: on `GET /certificate/:id/pdf` the rendered confidence is the
parsed `confidence` query parameter — the stored certificate is never
consulted, so the route's result is identical for any Store and cache
contents; with the parameter absent, `parseFloat('0') = 0` is rendered:
score text "0.0%" in the red "fail" band, whatever confidence any
stored row carries. -/
theorem c10_pdf_confidence_param (certId : String) (qrDataParam : Option String)
    (st st' : Store) (cache cache' : Cache) :
    (fetchPdfRoute certId qrDataParam none st cache none).resp
      = .pdfOk certId (renderCertificate certId (jsOr qrDataParam (verifyUrl certId)) 0) ∧
    (renderCertificate certId (jsOr qrDataParam (verifyUrl certId)) 0).scoreText = "0.0%" ∧
    (renderCertificate certId (jsOr qrDataParam (verifyUrl certId)) 0).scoreColor
      = (239, 68, 68) ∧
    (∀ confidenceParam kvPut,
      fetchPdfRoute certId qrDataParam confidenceParam st cache kvPut
        = fetchPdfRoute certId qrDataParam confidenceParam st' cache' kvPut) ∧
    (∀ p, (fetchPdfRoute certId qrDataParam (some p) st cache none).resp
      = .pdfOk certId
          (renderCertificate certId (jsOr qrDataParam (verifyUrl certId))
            (parseFloatModel (jsOr (some p) "0")))) := by
  have h0 : parseFloatModel (jsOr none "0") = 0 := by decide
  refine ⟨?_, ?_, ?_, fun cp kv => rfl, fun p => rfl⟩
  · simp only [fetchPdfRoute, h0]
    rfl
  · show toFixed1 0 ++ "%" = "0.0%"
    decide
  · show scoreColorOf 0 = (239, 68, 68)
    decide

/-- C10, witnessed with a stored certificate whose confidence is 99. -/
theorem c10_pdf_confidence_param_witness :
    (fetchPdfRoute "W10" none none
        [⟨"W10", 99, "TS", none, "active"⟩] [] none).resp
      = .pdfOk "W10" (renderCertificate "W10" (jsOr none (verifyUrl "W10")) 0) ∧
    (renderCertificate "W10" (jsOr none (verifyUrl "W10")) 0).scoreText = "0.0%" ∧
    (renderCertificate "W10" (jsOr none (verifyUrl "W10")) 0).scoreColor = (239, 68, 68) := by
  have h := c10_pdf_confidence_param "W10" none
    [⟨"W10", 99, "TS", none, "active"⟩] [] [] []
  exact ⟨h.1, h.2.1, h.2.2.1⟩

end OpalForge
